import Mathlib

/-!
# MSSorteos — verification of the raffle registration and code-issuance logic

Shallow embedding of the repository's three behavioural cores:

* the client registration form (`components/registration-form-section.tsx`):
  file-selection handler `handleFileChange` and submit gate `handleSubmit`;
* the server intake handler (`app/api/submit-form/route.ts`, the revision
  between the merge markers that carries the fuller validation: minimum
  ticket count, duplicate-reference detection via the database unique
  constraint, and the compensating delete of the uploaded object);
* the code-issuance task in its two revisions:
  `supabase/functions/send-codes/index.ts` (current: Set-based collision
  check, unbounded draw loop) and the earlier revision (per-draw database
  `contains` query, draw attempts bounded by 5× the requested count).

JavaScript machine behaviour is modelled explicitly: `Math.random()*10000`
draws become an ambient stream `draws : Nat → Nat` reduced mod 10000,
`Number.parseInt` becomes `jsParseInt`, `String(n).padStart(4, '0')`
becomes `pad4`, a JS `Set` in insertion order becomes a `List` with
insert-if-absent, and the unbounded `while` loop of the current issuance
revision is run on explicit fuel, `none` meaning "still drawing after
`fuel` attempts".
-/

namespace MSSorteos

/-- `String(n).padStart(4, '0')` from the issuance task: decimal rendering
left-padded with zeros to length 4. -/
def padStartZeros (s : String) (len : Nat) : String :=
  String.mk (List.replicate (len - s.length) '0') ++ s

/-- The code formatter of both issuance revisions:
`String(Math.floor(Math.random() * 10000)).padStart(4, '0')` applied to an
already-drawn natural number. -/
def pad4 (n : Nat) : String :=
  padStartZeros (toString n) 4

/-- Value of a list of decimal digit characters. -/
def digitsVal (l : List Char) : Nat :=
  l.foldl (fun acc c => acc * 10 + (c.toNat - 48)) 0

/-- `Number.parseInt` on the digit-string inputs this codebase feeds it:
the longest leading digit prefix, `none` for `NaN` (no leading digit). -/
def jsParseInt (s : String) : Option Nat :=
  match s.data.takeWhile Char.isDigit with
  | [] => none
  | ds => some (digitsVal ds)

/-- `String.prototype.trim`: strip leading and trailing whitespace. -/
def jsTrim (s : String) : String :=
  String.mk (((s.data.dropWhile Char.isWhitespace).reverse.dropWhile
    Char.isWhitespace).reverse)

/-- A browser `File`: original name and byte size. Content plays no role in
any of the checked properties. -/
structure FileData where
  name : String
  size : Nat
deriving DecidableEq

/-! ## Client: registration form (components/registration-form-section.tsx) -/

/-- Client-side file size ceiling: `const maxFileSize = 3 * 1024 * 1024`
(3 MiB), the value every revision under `src/` defines concretely. -/
def clientMaxFileSize : Nat := 3 * 1024 * 1024

/-- The oversize message of `handleFileChange`. The source interpolates the
size in MB rendered by floating-point `toFixed(2)`; the embedding renders
the exact byte count instead (the theorems only use that the message is
size-specific and that the error list is exactly this singleton). -/
def fileTooLargeMessage (sizeBytes : Nat) : String :=
  "El archivo seleccionado (" ++ toString sizeBytes ++ " bytes) supera el límite de 3MB"

/-- Result of one run of the client file-selection handler: the stored
proof file after the call, the validation error list it leaves behind, and
the file input's `value` (reset to `""` on oversize). -/
structure FileChangeResult where
  proofFile : Option FileData
  validationErrors : List String
  inputValue : String
deriving DecidableEq

/-- `handleFileChange` of the registration form. `prevProofFile` is the
file stored before the event; the source overwrites it unconditionally
(`setProofFile(...)`), which is why the result never depends on it. -/
def handleFileChange (prevProofFile : Option FileData) (selected : Option FileData)
    (inputValue : String) : FileChangeResult :=
  match selected with
  | some f =>
    if f.size > clientMaxFileSize then
      { proofFile := none
        validationErrors := [fileTooLargeMessage f.size]
        inputValue := "" }
    else
      { proofFile := some f, validationErrors := [], inputValue := inputValue }
  | none => { proofFile := none, validationErrors := [], inputValue := inputValue }

/-- The form's text fields, all held as strings exactly as in the
component's `FormData` state. -/
structure ClientForm where
  buyerName : String
  email : String
  phone : String
  referenceNumber : String
  ticketCount : String
deriving DecidableEq

def msgNameRequired : String := "Nombre del comprador es requerido"

def msgEmailRequired : String := "Email es requerido"

def msgPhoneRequired : String := "Número de teléfono es requerido"

def msgReferenceRequired : String := "Número de referencia es requerido"

def msgMinTicketsClient : String := "Número de tickets es requerido (mínimo 3)"

def msgProofRequired : String := "Comprobante de pago es requerido"

def msgTermsRequired : String := "Debes aceptar los términos y condiciones"

/-- The four trim-emptiness pushes of `handleSubmit`, in source order. -/
def requiredFieldErrors (form : ClientForm) : List String :=
  (if jsTrim form.buyerName = "" then [msgNameRequired] else []) ++
  (if jsTrim form.email = "" then [msgEmailRequired] else []) ++
  (if jsTrim form.phone = "" then [msgPhoneRequired] else []) ++
  (if jsTrim form.referenceNumber = "" then [msgReferenceRequired] else [])

/-- `const ticketCount = Number.parseInt(formData.ticketCount) || 0;
if (ticketCount < 3) errors.push(...)` — `NaN` falls to 0, below minimum. -/
def ticketCountError (ticketCount : String) : List String :=
  if (jsParseInt ticketCount).getD 0 < 3 then [msgMinTicketsClient] else []

/-- `if (!proofFile) errors.push(...)`. -/
def proofFileError (proofFile : Option FileData) : List String :=
  if proofFile.isNone then [msgProofRequired] else []

/-- Every error `handleSubmit` pushes onto `errors` before the
`errors.length > 0` gate, in push order. The terms-and-conditions check is
NOT part of this list: the source tests it separately afterwards. -/
def clientFieldErrors (form : ClientForm) (proofFile : Option FileData) : List String :=
  requiredFieldErrors form ++ ticketCountError form.ticketCount ++ proofFileError proofFile

/-- The multipart payload `handleSubmit` builds when validation passes,
field names as appended to the `FormData`. -/
structure TransportPayload where
  nombre_comprador : String
  email : String
  telefono : String
  numero_referencia : String
  tickets_comprados : String
  comprobante_pago : FileData
deriving DecidableEq

/-- Outcome of the submit gate: either a list of validation messages is
shown and no network request happens, or one request is issued. -/
inductive SubmitOutcome where
  | rejected (errors : List String)
  | transport (payload : TransportPayload)
deriving DecidableEq

/-- `handleSubmit` of the registration form up to the `fetch` call: collect
the field errors; if any, reject with them; otherwise check the terms
checkbox; otherwise build the payload and issue the single request. -/
def handleSubmit (form : ClientForm) (proofFile : Option FileData)
    (termsAccepted : Bool) : SubmitOutcome :=
  let errors := clientFieldErrors form proofFile
  if errors.isEmpty then
    if termsAccepted then
      .transport
        { nombre_comprador := form.buyerName
          email := form.email
          telefono := form.phone
          numero_referencia := form.referenceNumber
          tickets_comprados := form.ticketCount
          comprobante_pago := proofFile.getD { name := "", size := 0 } }
    else
      .rejected [msgTermsRequired]
  else
    .rejected errors

/-! ## Server: intake handler (app/api/submit-form/route.ts)

The file under `src/` holds two revisions between merge markers; the one
embedded here is the fuller revision (lines 164–363): combined emptiness
check over the four text fields, `parseInt`-based minimum ticket count,
size ceiling, UUID storage key, insert into `forms` (receipt number under
a database unique constraint, Postgres error code 23505 on violation),
insert into `form_files`, and a compensating `storage.remove` on any
database failure after the upload. Its size ceiling `MAX_FILE_SIZE_BYTES`
is imported from `lib/utils` but not defined anywhere under `src/`
(the other revision hard-codes 3 MiB), so the handler is parametric in
`maxFileSize`. -/

/-- One row of the `forms` table. -/
structure FormRow where
  id : Nat
  full_name : String
  email : String
  phone : String
  receipt_number : String
  tickets : Nat
  validated : Bool
deriving DecidableEq

/-- One row of the `form_files` table. -/
structure FileMetaRow where
  form_id : Nat
  file_name : String
  storage_path : String
deriving DecidableEq

/-- The hosted state the handler touches: object keys in the `receipts`
bucket and the two tables. -/
structure ServerState where
  storage : List String
  forms : List FormRow
  form_files : List FileMetaRow
deriving DecidableEq

/-- Environment of one request: which infrastructure calls fail (beyond
the uniqueness violation, which is determined by the state itself), the id
the database assigns to the inserted form row, and the generated UUID for
the storage key. -/
structure ServerInfra where
  uploadFails : Bool
  formsInsertInfraFails : Bool
  fileMetaInsertFails : Bool
  nextId : Nat
  uuid : String
deriving DecidableEq

/-- The JSON response: HTTP status plus either an error message or the
inserted row id. -/
structure ServerResponse where
  status : Nat
  error : Option String
  dataId : Option Nat
deriving DecidableEq

/-- `comprobantePago.name.split(".").pop()`: everything after the last
dot, the whole name when there is no dot. -/
def fileExtension (name : String) : String :=
  String.mk ((name.data.reverse.takeWhile (fun c => c ≠ '.')).reverse)

def msgAllTextRequired : String := "Todos los campos de texto son requeridos."

def msgMinTicketsServer : String := "Número de tickets debe ser un número válido (mínimo 3)."

def msgFileRequiredServer : String := "Comprobante de pago es un campo requerido."

/-- The fuller revision's size message (its comment states the 2 MB
ceiling that `MAX_FILE_SIZE_BYTES` was meant to carry). -/
def msgFileTooLargeServer : String := "El comprobante de pago no puede superar los 2 MB."

def msgDuplicateReference : String := "Este número de referencia ya existe. Por favor, verifica tu recibo."

/-- Stand-in for the database driver's message on a non-duplicate insert
failure (the source interpolates `insertFormError.message`). -/
def msgDbInfra : String := "Error al registrar el formulario: fallo de base de datos"

/-- Stand-in for the metadata-insert failure detail. -/
def msgFileMetaInfra : String := "Error al registrar metadata del archivo: fallo de base de datos"

/-- Stand-in for the storage upload failure detail. -/
def msgUploadError : String := "Error al subir el comprobante de pago: fallo de almacenamiento"

/-- `Error al registrar la información del contacto: ...` — the catch
block wraps the thrown message before responding with status 500. -/
def registrationErrorMessage (detail : String) : String :=
  "Error al registrar la información del contacto: " ++ detail

/-- Sections 2.2–2.4 of the handler, reached once every validation has
passed: upload the file under the generated key, insert into `forms`
(the unique constraint on `receipt_number` firing as Postgres 23505 when
the reference already exists), insert into `form_files`, and on any
database failure remove the uploaded object before responding 500. -/
def insertPhase (st : ServerState) (infra : ServerInfra)
    (nombre email telefono referencia : String) (tickets : Nat)
    (f : FileData) : ServerResponse × ServerState :=
  let key := infra.uuid ++ "." ++ fileExtension f.name
  let st1 : ServerState := { st with storage := st.storage ++ [key] }
  if st.forms.any (fun r => r.receipt_number = referencia) then
    ({ status := 500
       error := some (registrationErrorMessage msgDuplicateReference)
       dataId := none },
     { st1 with storage := st1.storage.filter (fun k => k ≠ key) })
  else if infra.formsInsertInfraFails then
    ({ status := 500
       error := some (registrationErrorMessage msgDbInfra)
       dataId := none },
     { st1 with storage := st1.storage.filter (fun k => k ≠ key) })
  else
    let row : FormRow :=
      { id := infra.nextId
        full_name := nombre
        email := email
        phone := telefono
        receipt_number := referencia
        tickets := tickets
        validated := false }
    let st2 : ServerState := { st1 with forms := st1.forms ++ [row] }
    if infra.fileMetaInsertFails then
      ({ status := 500
         error := some (registrationErrorMessage msgFileMetaInfra)
         dataId := none },
       { st2 with storage := st2.storage.filter (fun k => k ≠ key) })
    else
      ({ status := 200, error := none, dataId := some infra.nextId },
       { st2 with
          form_files := st2.form_files ++
            [{ form_id := infra.nextId, file_name := f.name, storage_path := key }] })

/-- `POST` of the intake route, as a function of the extracted form fields
and the request environment; returns the response and the state after the
request (uploads, inserts, and the compensating delete applied). -/
def post (maxFileSize : Nat) (st : ServerState) (infra : ServerInfra)
    (nombre email telefono referencia ticketsStr : String)
    (file : Option FileData) : ServerResponse × ServerState :=
  if jsTrim nombre = "" ∨ jsTrim email = "" ∨ jsTrim telefono = "" ∨ jsTrim referencia = "" then
    ({ status := 400, error := some msgAllTextRequired, dataId := none }, st)
  else
    match jsParseInt ticketsStr with
    | none => ({ status := 400, error := some msgMinTicketsServer, dataId := none }, st)
    | some tickets =>
      if tickets < 3 then
        ({ status := 400, error := some msgMinTicketsServer, dataId := none }, st)
      else
        match file with
        | none => ({ status := 400, error := some msgFileRequiredServer, dataId := none }, st)
        | some f =>
          if f.size = 0 then
            ({ status := 400, error := some msgFileRequiredServer, dataId := none }, st)
          else if f.size > maxFileSize then
            ({ status := 400, error := some msgFileTooLargeServer, dataId := none }, st)
          else if infra.uploadFails then
            ({ status := 500, error := some msgUploadError, dataId := none }, st)
          else
            insertPhase st infra nombre email telefono referencia tickets f

/-! ## Code-issuance task (supabase/functions/send-codes/index.ts, current
revision, and the earlier revision of the same function)

The `compras` table: one row per submission, each carrying the buyer data
and its `codigos_unicos` jsonb array. Randomness is an ambient stream
`draws : Nat → Nat`; draw `i` yields the code `pad4 (draws i % 10000)`,
matching `String(Math.floor(Math.random() * 10000)).padStart(4, '0')`. -/

/-- One row of the `compras` table (the earlier revision calls it
`Contactos`; same shape for the fields the task touches). -/
structure Compra where
  id : Nat
  tickets_comprados : Nat
  codigos_unicos : List String
  email : String
  nombre_comprador : String
deriving DecidableEq

/-- `Set.add` in insertion order: append if absent. -/
def insertCode (l : List String) (code : String) : List String :=
  if code ∈ l then l else l ++ [code]

/-- `allExistingCodes`: every row's `codigos_unicos` folded into one Set
for fast lookup (current revision, step 2.3). -/
def allExistingCodes (store : List Compra) : List String :=
  store.foldl (fun acc c => c.codigos_unicos.foldl insertCode acc) []

/-- All codes stored against any submission, with multiplicity. -/
def allStoredCodes (store : List Compra) : List String :=
  store.flatMap (fun c => c.codigos_unicos)

/-- The current revision's draw loop
`while (codesToGenerate.size < numTickets) { ... }`, run on explicit fuel:
one unit per draw attempt, `none` when the loop is still short of
`need` codes after `fuel` attempts. An accepted draw is added both to the
batch (`gen`, the `codesToGenerate` Set) and to `existing`
(`allExistingCodes`), exactly as in the source. -/
def genLoopIdx (draws : Nat → Nat) (need : Nat) :
    List String → List String → Nat → Nat → Option (List String)
  | gen, _, _, 0 => if gen.length < need then none else some gen
  | gen, existing, i, fuel + 1 =>
    if gen.length < need then
      let code := pad4 (draws i % 10000)
      if code ∈ existing then
        genLoopIdx draws need gen existing (i + 1) fuel
      else
        genLoopIdx draws need (gen ++ [code]) (existing ++ [code]) (i + 1) fuel
    else
      some gen

/-- `.update({ codigos_unicos: newCodes }).eq('id', compra_id)`: replace
the code list of every row whose id matches. -/
def updateStore (store : List Compra) (compra_id : Nat) (codes : List String) : List Compra :=
  store.map (fun c => if c.id = compra_id then { c with codigos_unicos := codes } else c)

/-- Outcome of one invocation of the current issuance revision: success
with the generated batch, an error response, or still inside the draw loop
after the given number of attempts. Every outcome carries the store as the
invocation leaves it. -/
inductive SendResult where
  | ok (codes : List String) (store : List Compra)
  | err (status : Nat) (store : List Compra)
  | pending (store : List Compra)
deriving DecidableEq

/-- The current revision's handler (send-codes/index.ts): look the
submission up, build the Set of all existing codes, refuse with 403 when
the 10000-code cap would be exceeded, run the draw loop, then persist the
batch against the submission. The email send happens after the update and
never affects the persisted codes. -/
def sendCodes (store : List Compra) (compra_id : Nat) (draws : Nat → Nat)
    (fuel : Nat) : SendResult :=
  match store.find? (fun c => c.id = compra_id) with
  | none => .err 500 store
  | some compra =>
    let existing := allExistingCodes store
    if existing.length + compra.tickets_comprados > 10000 then
      .err 403 store
    else
      match genLoopIdx draws compra.tickets_comprados [] existing 0 fuel with
      | none => .pending store
      | some newCodes => .ok newCodes (updateStore store compra_id newCodes)

/-- The earlier revision's per-draw collision query:
`.contains('codigos_unicos', [newCode])` returns the rows whose array
contains the code; the draw is accepted iff no row does. -/
def containsCode (store : List Compra) (code : String) : Bool :=
  store.any (fun c => code ∈ c.codigos_unicos)

/-- The earlier revision's bounded draw loop:
`while (uniqueCodes.length < numTickets && attempts < MAX_ATTEMPTS)`,
`remaining = MAX_ATTEMPTS - attempts`. A draw is pushed when no stored row
contains it — the batch built so far is NOT consulted, as in the source. -/
def genLoopV1 (store : List Compra) (draws : Nat → Nat) (need : Nat) :
    List String → Nat → Nat → List String
  | acc, _, 0 => acc
  | acc, i, r + 1 =>
    if acc.length < need then
      let code := pad4 (draws i % 10000)
      genLoopV1 store draws need
        (if containsCode store code then acc else acc ++ [code]) (i + 1) r
    else
      acc

/-- Outcome of the earlier revision (no unbounded loop, so no pending
state). -/
inductive V1Result where
  | ok (codes : List String) (store : List Compra)
  | err (status : Nat) (store : List Compra)
deriving DecidableEq

/-- The earlier revision's handler: cap check against the ROW count of the
table (`select('*', { count: 'exact' })`), then the 5×-bounded draw loop
(`MAX_ATTEMPTS = numTickets * 5`), failing the whole batch with 500 when
the bound leaves the batch short, else persisting it. -/
def sendCodesV1 (store : List Compra) (compra_id : Nat) (numTickets : Nat)
    (draws : Nat → Nat) : V1Result :=
  if store.length + numTickets > 10000 then
    .err 403 store
  else
    let uniqueCodes := genLoopV1 store draws numTickets [] 0 (numTickets * 5)
    if uniqueCodes.length ≠ numTickets then
      .err 500 store
    else
      .ok uniqueCodes (updateStore store compra_id uniqueCodes)

/-! ## Concrete inputs used by counterexamples and witnesses -/

/-- A draw stream that always draws 0 — every attempt yields "0000". -/
def constZero : Nat → Nat := fun _ => 0

/-- The identity draw stream: attempt `i` draws code `pad4 i`. -/
def drawId : Nat → Nat := fun i => i

/-- A stream agreeing with `constZero` on the first five attempts only. -/
def zeroThenSeven : Nat → Nat := fun i => if i < 5 then 0 else 7

/-- One submission for one ticket whose code space contention is total:
"0000" is already issued and `constZero` only ever draws "0000". -/
def storeOne : List Compra :=
  [{ id := 0, tickets_comprados := 1, codigos_unicos := ["0000"],
     email := "e", nombre_comprador := "n" }]

/-- One submission for one ticket, no codes issued yet. -/
def storeA : List Compra :=
  [{ id := 0, tickets_comprados := 1, codigos_unicos := [],
     email := "e", nombre_comprador := "n" }]

/-- `storeA` after a first successful run issued "0000" to it. -/
def storeB : List Compra :=
  [{ id := 0, tickets_comprados := 1, codigos_unicos := ["0000"],
     email := "e", nombre_comprador := "n" }]

/-- `storeB` after a second successful run replaced its list with "0001". -/
def storeC : List Compra :=
  [{ id := 0, tickets_comprados := 1, codigos_unicos := ["0001"],
     email := "e", nombre_comprador := "n" }]

/-- One submission requesting two tickets, no codes issued yet. -/
def storeTwo : List Compra :=
  [{ id := 0, tickets_comprados := 2, codigos_unicos := [],
     email := "e", nombre_comprador := "n" }]

/-- `storeTwo` after a successful two-ticket run under `drawId`. -/
def storeTwoAfter : List Compra :=
  [{ id := 0, tickets_comprados := 2, codigos_unicos := ["0000", "0001"],
     email := "e", nombre_comprador := "n" }]

/-- A submission whose requested count alone overshoots the 10000 cap. -/
def storeCap : List Compra :=
  [{ id := 0, tickets_comprados := 20000, codigos_unicos := [],
     email := "e", nombre_comprador := "n" }]

/-- A form whose buyer name fails validation while every other field
passes; used together with an unticked terms checkbox. -/
def cform : ClientForm :=
  { buyerName := "", email := "a@b.cl", phone := "+56", referenceNumber := "R1",
    ticketCount := "3" }

/-- A form with every field valid. -/
def cformOk : ClientForm :=
  { buyerName := "Ana", email := "a@b.cl", phone := "+56", referenceNumber := "R1",
    ticketCount := "3" }

/-- A small valid proof file. -/
def cfile : FileData := { name := "c.png", size := 100 }

/-- A proof file of exactly the client ceiling. -/
def fExact : FileData := { name := "f.png", size := clientMaxFileSize }

/-- A proof file one byte over the client ceiling. -/
def fOver : FileData := { name := "f.png", size := clientMaxFileSize + 1 }

/-- Empty hosted state. -/
def stEmpty : ServerState := { storage := [], forms := [], form_files := [] }

/-- A prior submission that already used reference number "R1". -/
def rowR1 : FormRow :=
  { id := 1, full_name := "Luis", email := "l@b.cl", phone := "+56",
    receipt_number := "R1", tickets := 3, validated := false }

/-- State holding the prior "R1" submission. -/
def stWithR1 : ServerState := { storage := [], forms := [rowR1], form_files := [] }

/-- Request environment with no infrastructure failures. -/
def infraOk : ServerInfra :=
  { uploadFails := false, formsInsertInfraFails := false, fileMetaInsertFails := false,
    nextId := 2, uuid := "u" }

/-- Request environment where the `form_files` insert fails. -/
def infraMetaFail : ServerInfra :=
  { uploadFails := false, formsInsertInfraFails := false, fileMetaInsertFails := true,
    nextId := 2, uuid := "u" }

/-! ## Helper lemmas -/

/-- Removing a key that is not present is a no-op. -/
theorem filter_ne_eq_self {l : List String} {key : String} (h : key ∉ l) :
    l.filter (fun k => k ≠ key) = l := by
  induction l with
  | nil => rfl
  | cons a t ih =>
    simp only [List.mem_cons, not_or] at h
    have ha : decide (a ≠ key) = true := decide_eq_true (fun hEq => h.1 hEq.symm)
    rw [List.filter_cons, if_pos ha, ih h.2]

theorem mem_insertCode {l : List String} {c x : String} :
    x ∈ insertCode l c ↔ x ∈ l ∨ x = c := by
  unfold insertCode
  split
  · rename_i h
    constructor
    · exact Or.inl
    · rintro (hx | rfl)
      · exact hx
      · exact h
  · simp

theorem mem_foldl_insertCode (codes : List String) :
    ∀ (acc : List String) (x : String),
      x ∈ codes.foldl insertCode acc ↔ x ∈ acc ∨ x ∈ codes := by
  induction codes with
  | nil => simp
  | cons c t ih =>
    intro acc x
    simp only [List.foldl_cons, ih, mem_insertCode, List.mem_cons]
    tauto

theorem mem_allExistingCodes_aux (store : List Compra) :
    ∀ (acc : List String) (x : String),
      x ∈ store.foldl (fun acc c => c.codigos_unicos.foldl insertCode acc) acc ↔
        x ∈ acc ∨ ∃ c ∈ store, x ∈ c.codigos_unicos := by
  induction store with
  | nil => simp
  | cons r t ih =>
    intro acc x
    simp only [List.foldl_cons, ih, mem_foldl_insertCode, List.mem_cons]
    constructor
    · rintro ((hx | hx) | ⟨c, hc, hx⟩)
      · exact Or.inl hx
      · exact Or.inr ⟨r, Or.inl rfl, hx⟩
      · exact Or.inr ⟨c, Or.inr hc, hx⟩
    · rintro (hx | ⟨c, hc | hc, hx⟩)
      · exact Or.inl (Or.inl hx)
      · exact Or.inl (Or.inr (hc ▸ hx))
      · exact Or.inr ⟨c, hc, hx⟩

theorem mem_allExistingCodes {store : List Compra} {x : String} :
    x ∈ allExistingCodes store ↔ ∃ c ∈ store, x ∈ c.codigos_unicos := by
  unfold allExistingCodes
  rw [mem_allExistingCodes_aux]
  simp

theorem mem_allStoredCodes {store : List Compra} {x : String} :
    x ∈ allStoredCodes store ↔ ∃ c ∈ store, x ∈ c.codigos_unicos := by
  simp [allStoredCodes]

/-- The update touches no row with a different id. -/
theorem updateStore_eq_self {t : List Compra} {cid : Nat} {codes : List String}
    (h : ∀ c ∈ t, c.id ≠ cid) : updateStore t cid codes = t := by
  induction t with
  | nil => rfl
  | cons c r ih =>
    have hc : ¬ c.id = cid := h c (List.mem_cons_self c r)
    have ht : updateStore r cid codes = r := ih (fun d hd => h d (List.mem_cons_of_mem c hd))
    simp only [updateStore, List.map_cons, if_neg hc] at *
    rw [ht]

/-- After the update, every stored code is an old stored code or part of
the new batch. -/
theorem mem_updateStore_flat {store : List Compra} {cid : Nat} {codes : List String}
    {x : String} (hx : x ∈ allStoredCodes (updateStore store cid codes)) :
    x ∈ allStoredCodes store ∨ x ∈ codes := by
  simp only [allStoredCodes, updateStore, List.mem_flatMap, List.mem_map] at hx
  obtain ⟨c, ⟨c0, hc0, hEq⟩, hx⟩ := hx
  by_cases h : c0.id = cid
  · subst hEq
    simp only [if_pos h] at hx
    exact Or.inr hx
  · subst hEq
    simp only [if_neg h] at hx
    exact Or.inl (by simp only [allStoredCodes, List.mem_flatMap]; exact ⟨c0, hc0, hx⟩)

/-- A row of the updated store with a different id is an untouched row of
the original store. -/
theorem mem_updateStore_other {store : List Compra} {cid : Nat} {codes : List String}
    {c : Compra} (hc : c ∈ updateStore store cid codes) (hid : c.id ≠ cid) :
    c ∈ store := by
  simp only [updateStore, List.mem_map] at hc
  obtain ⟨c0, hc0, hEq⟩ := hc
  by_cases h : c0.id = cid
  · subst hEq
    simp only [if_pos h] at hid
    exact absurd h hid
  · subst hEq
    simp only [if_neg h]
    exact hc0

/-- Looking up the updated submission returns it with exactly the new
batch as its code list. -/
theorem find?_updateStore {store : List Compra} {cid : Nat} {codes : List String}
    {compra : Compra}
    (hfind : store.find? (fun c => c.id = cid) = some compra) :
    (updateStore store cid codes).find? (fun c => c.id = cid) =
      some { compra with codigos_unicos := codes } := by
  induction store with
  | nil => simp at hfind
  | cons r t ih =>
    by_cases h : r.id = cid
    · rw [List.find?_cons_of_pos _ (by simpa using h)] at hfind
      obtain rfl : r = compra := by simpa using hfind
      show List.find? _ (_ :: _) = _
      rw [List.find?_cons_of_pos]
      · simp [if_pos h]
      · simp [if_pos h, h]
    · rw [List.find?_cons_of_neg _ (by simpa using h)] at hfind
      show List.find? _ (_ :: _) = _
      rw [List.find?_cons_of_neg]
      · exact ih hfind
      · simp [if_neg h, h]

/-- Global-uniqueness preservation: when the batch is duplicate-free and
fresh with respect to every stored code, replacing the target row's list
with the batch keeps the multiset of all stored codes duplicate-free. -/
theorem updateStore_nodup {store : List Compra} {cid : Nat} {codes : List String}
    (hids : (store.map (fun c => c.id)).Nodup)
    (hcodes : codes.Nodup)
    (hfresh : ∀ x ∈ codes, x ∉ allStoredCodes store)
    (hstore : (allStoredCodes store).Nodup) :
    (allStoredCodes (updateStore store cid codes)).Nodup := by
  induction store with
  | nil => simp [allStoredCodes, updateStore]
  | cons r t ih =>
    have hflat : allStoredCodes (r :: t) = r.codigos_unicos ++ allStoredCodes t := by
      simp [allStoredCodes]
    rw [hflat] at hstore
    rw [List.nodup_append] at hstore
    obtain ⟨hr, ht, hdisj⟩ := hstore
    simp only [List.map_cons, List.nodup_cons] at hids
    obtain ⟨hrid, hids_t⟩ := hids
    have hfresh_t : ∀ x ∈ codes, x ∉ allStoredCodes t := by
      intro x hx hxt
      exact hfresh x hx (by rw [hflat]; exact List.mem_append_right _ hxt)
    have hfresh_r : ∀ x ∈ codes, x ∉ r.codigos_unicos := by
      intro x hx hxr
      exact hfresh x hx (by rw [hflat]; exact List.mem_append_left _ hxr)
    by_cases h : r.id = cid
    · have htail : updateStore t cid codes = t := by
        refine updateStore_eq_self (fun c hc hcEq => ?_)
        exact hrid (by rw [← hcEq] at h; exact h ▸ (List.mem_map_of_mem (fun c => c.id) hc))
      have : allStoredCodes (updateStore (r :: t) cid codes) = codes ++ allStoredCodes t := by
        simp only [updateStore, List.map_cons, if_pos h, allStoredCodes, List.flatMap_cons]
        have := congrArg allStoredCodes htail
        simp only [allStoredCodes] at this ⊢
        rw [show List.map (fun c => if c.id = cid then { c with codigos_unicos := codes } else c) t =
              updateStore t cid codes from rfl, htail]
      rw [this, List.nodup_append]
      exact ⟨hcodes, ht, fun x hx => hfresh_t x hx⟩
    · have : allStoredCodes (updateStore (r :: t) cid codes) =
          r.codigos_unicos ++ allStoredCodes (updateStore t cid codes) := by
        simp only [updateStore, List.map_cons, if_neg h, allStoredCodes, List.flatMap_cons]
      rw [this, List.nodup_append]
      refine ⟨hr, ih hids_t hfresh_t ht, ?_⟩
      intro x hx hxu
      rcases mem_updateStore_flat hxu with hold | hnew
      · exact hdisj hx hold
      · exact hfresh_r x hnew hx

/-- Soundness of the current revision's draw loop. Invariant formulation:
the loop runs with `existing = before ++ gen` (the pre-existing Set plus
the batch accepted so far, exactly how the source maintains
`allExistingCodes`). A completed loop returns a duplicate-free batch of
exactly `need` codes from the 4-digit space, each either already in the
starting batch or absent from `before`. -/
theorem genLoopIdx_sound (draws : Nat → Nat) (need : Nat) :
    ∀ (fuel i : Nat) (before gen out : List String),
      gen.Nodup → gen.length ≤ need →
      (∀ c ∈ gen, ∃ m, m < 10000 ∧ c = pad4 m) →
      genLoopIdx draws need gen (before ++ gen) i fuel = some out →
      out.Nodup ∧ out.length = need ∧
        (∀ c ∈ out, c ∈ gen ∨ c ∉ before) ∧
        (∀ c ∈ out, ∃ m, m < 10000 ∧ c = pad4 m) := by
  intro fuel
  induction fuel with
  | zero =>
    intro i before gen out hnd hlen hpad hrun
    simp only [genLoopIdx] at hrun
    split at hrun
    · exact Option.noConfusion hrun
    · rename_i hge
      obtain rfl : gen = out := by simpa using hrun
      exact ⟨hnd, by omega, fun c hc => Or.inl hc, hpad⟩
  | succ fuel ih =>
    intro i before gen out hnd hlen hpad hrun
    simp only [genLoopIdx] at hrun
    split at hrun
    · rename_i hlt
      by_cases hmem : pad4 (draws i % 10000) ∈ before ++ gen
      · rw [if_pos hmem] at hrun
        exact ih (i + 1) before gen out hnd hlen hpad hrun
      · rw [if_neg hmem] at hrun
        rw [List.append_assoc] at hrun
        have hnd' : (gen ++ [pad4 (draws i % 10000)]).Nodup := by
          rw [List.nodup_append]
          refine ⟨hnd, List.nodup_singleton _, ?_⟩
          intro a ha hb
          obtain rfl : a = pad4 (draws i % 10000) := by simpa using hb
          exact hmem (List.mem_append_right _ ha)
        have hlen' : (gen ++ [pad4 (draws i % 10000)]).length ≤ need := by
          simp only [List.length_append, List.length_singleton]
          omega
        have hpad' : ∀ c ∈ gen ++ [pad4 (draws i % 10000)], ∃ m, m < 10000 ∧ c = pad4 m := by
          intro c hc
          rcases List.mem_append.mp hc with hg | hg
          · exact hpad c hg
          · obtain rfl : c = pad4 (draws i % 10000) := by simpa using hg
            exact ⟨draws i % 10000, Nat.mod_lt _ (by norm_num), rfl⟩
        obtain ⟨hond, holen, hobef, hopad⟩ :=
          ih (i + 1) before (gen ++ [pad4 (draws i % 10000)]) out hnd' hlen' hpad' hrun
        refine ⟨hond, holen, ?_, hopad⟩
        intro c hc
        rcases hobef c hc with hg | hnb
        · rcases List.mem_append.mp hg with hg | hg
          · exact Or.inl hg
          · obtain rfl : c = pad4 (draws i % 10000) := by simpa using hg
            exact Or.inr (fun hb => hmem (List.mem_append_left _ hb))
        · exact Or.inr hnb
    · rename_i hge
      obtain rfl : gen = out := by simpa using hrun
      exact ⟨hnd, by omega, fun c hc => Or.inl hc, hpad⟩

/-- Once every validation passes and the upload succeeds, the handler is
the insert phase. -/
theorem post_reduces (M : Nat) (st : ServerState) (infra : ServerInfra)
    (nombre email telefono referencia ticketsStr : String) (t : Nat) (f : FileData)
    (h1 : ¬ jsTrim nombre = "") (h2 : ¬ jsTrim email = "")
    (h3 : ¬ jsTrim telefono = "") (h4 : ¬ jsTrim referencia = "")
    (h5 : jsParseInt ticketsStr = some t) (h6 : ¬ t < 3)
    (h7 : ¬ f.size = 0) (h8 : ¬ f.size > M)
    (h9 : infra.uploadFails = false) :
    post M st infra nombre email telefono referencia ticketsStr (some f) =
      insertPhase st infra nombre email telefono referencia t f := by
  unfold post
  rw [if_neg (by simp [h1, h2, h3, h4]), h5]
  simp only [if_neg h6, if_neg h7, if_neg h8, h9, Bool.false_eq_true, if_false]

/-- The duplicate-reference branch: 500 with the wrapped 23505 message,
file rolled back, tables untouched. -/
theorem insertPhase_duplicate (st : ServerState) (infra : ServerInfra)
    (nombre email telefono referencia : String) (t : Nat) (f : FileData)
    (hdup : st.forms.any (fun r => r.receipt_number = referencia) = true)
    (hfresh : infra.uuid ++ "." ++ fileExtension f.name ∉ st.storage) :
    insertPhase st infra nombre email telefono referencia t f =
      ({ status := 500
         error := some (registrationErrorMessage msgDuplicateReference)
         dataId := none }, st) := by
  obtain ⟨s, fo, fi⟩ := st
  simp only at hdup hfresh
  have hclean : (s ++ [infra.uuid ++ "." ++ fileExtension f.name]).filter
      (fun k => k ≠ infra.uuid ++ "." ++ fileExtension f.name) = s := by
    rw [List.filter_append, filter_ne_eq_self hfresh]
    simp
  simp only [insertPhase, hdup, if_true]
  rw [hclean]

/-- Any database failure after a successful upload: 500 response and the
bucket exactly as before the request (the compensating delete ran). -/
theorem insertPhase_dbFailure (st : ServerState) (infra : ServerInfra)
    (nombre email telefono referencia : String) (t : Nat) (f : FileData)
    (hfresh : infra.uuid ++ "." ++ fileExtension f.name ∉ st.storage)
    (hfail : st.forms.any (fun r => r.receipt_number = referencia) = true ∨
      infra.formsInsertInfraFails = true ∨ infra.fileMetaInsertFails = true) :
    (insertPhase st infra nombre email telefono referencia t f).fst.status = 500 ∧
    (insertPhase st infra nombre email telefono referencia t f).snd.storage = st.storage := by
  obtain ⟨s, fo, fi⟩ := st
  simp only at hfresh hfail
  have hclean : (s ++ [infra.uuid ++ "." ++ fileExtension f.name]).filter
      (fun k => k ≠ infra.uuid ++ "." ++ fileExtension f.name) = s := by
    rw [List.filter_append, filter_ne_eq_self hfresh]
    simp
  by_cases hdup : fo.any (fun r => r.receipt_number = referencia) = true
  · simp only [insertPhase, hdup, if_true]
    exact ⟨by trivial, hclean⟩
  · by_cases hforms : infra.formsInsertInfraFails = true
    · simp only [insertPhase, hdup, hforms, if_true, if_false]
      exact ⟨by trivial, hclean⟩
    · have hmeta : infra.fileMetaInsertFails = true := by
        rcases hfail with h | h | h
        · exact absurd h hdup
        · exact absurd h hforms
        · exact h
      simp only [insertPhase, hdup, hforms, hmeta, if_true, if_false]
      exact ⟨by trivial, hclean⟩

/-- The clean path: 200 with the new row id, the row and the metadata
inserted, the uploaded object kept. -/
theorem insertPhase_success (st : ServerState) (infra : ServerInfra)
    (nombre email telefono referencia : String) (t : Nat) (f : FileData)
    (hdup : st.forms.any (fun r => r.receipt_number = referencia) = false)
    (hforms : infra.formsInsertInfraFails = false)
    (hmeta : infra.fileMetaInsertFails = false) :
    insertPhase st infra nombre email telefono referencia t f =
      ({ status := 200, error := none, dataId := some infra.nextId },
       { storage := st.storage ++ [infra.uuid ++ "." ++ fileExtension f.name]
         forms := st.forms ++
           [{ id := infra.nextId, full_name := nombre, email := email, phone := telefono,
              receipt_number := referencia, tickets := t, validated := false }]
         form_files := st.form_files ++
           [{ form_id := infra.nextId, file_name := f.name,
              storage_path := infra.uuid ++ "." ++ fileExtension f.name }] }) := by
  obtain ⟨s, fo, fi⟩ := st
  simp only at hdup
  simp only [insertPhase, hdup, hforms, Bool.false_eq_true, if_false, hmeta]

theorem mem_ite_singleton {c : Prop} [Decidable c] {m x : String} :
    x ∈ (if c then [m] else []) ↔ c ∧ x = m := by
  split <;> simp_all

/-- Which messages `handleSubmit` collects, characterised rule by rule. -/
theorem mem_clientFieldErrors {form : ClientForm} {pf : Option FileData} {x : String} :
    x ∈ clientFieldErrors form pf ↔
      (jsTrim form.buyerName = "" ∧ x = msgNameRequired) ∨
      (jsTrim form.email = "" ∧ x = msgEmailRequired) ∨
      (jsTrim form.phone = "" ∧ x = msgPhoneRequired) ∨
      (jsTrim form.referenceNumber = "" ∧ x = msgReferenceRequired) ∨
      ((jsParseInt form.ticketCount).getD 0 < 3 ∧ x = msgMinTicketsClient) ∨
      (pf.isNone = true ∧ x = msgProofRequired) := by
  unfold clientFieldErrors requiredFieldErrors ticketCountError proofFileError
  simp only [List.mem_append, mem_ite_singleton]
  tauto

/-- The minimum-count message appears exactly when the parsed count (0 for
`NaN`) is below 3. -/
theorem minTicket_mem_iff (form : ClientForm) (pf : Option FileData) :
    msgMinTicketsClient ∈ clientFieldErrors form pf ↔
      (jsParseInt form.ticketCount).getD 0 < 3 := by
  rw [mem_clientFieldErrors]
  constructor
  · rintro (⟨_, h⟩ | ⟨_, h⟩ | ⟨_, h⟩ | ⟨_, h⟩ | ⟨h, _⟩ | ⟨_, h⟩)
    · exact absurd h (by decide)
    · exact absurd h (by decide)
    · exact absurd h (by decide)
    · exact absurd h (by decide)
    · exact h
    · exact absurd h (by decide)
  · intro h
    exact Or.inr (Or.inr (Or.inr (Or.inr (Or.inl ⟨h, rfl⟩))))

/-- What a successful run of the current issuance revision guarantees:
the batch is duplicate-free, has exactly the requested length, consists of
4-digit codes fresh with respect to every pre-existing code, and the final
store is the original with the target row's list replaced by the batch. -/
theorem sendCodes_ok_spec {store : List Compra} {cid : Nat} {draws : Nat → Nat}
    {fuel : Nat} {compra : Compra} {codes : List String} {store' : List Compra}
    (hfind : store.find? (fun c => c.id = cid) = some compra)
    (hrun : sendCodes store cid draws fuel = .ok codes store') :
    codes.Nodup ∧ codes.length = compra.tickets_comprados ∧
    (∀ c ∈ codes, c ∉ allExistingCodes store ∧ ∃ m, m < 10000 ∧ c = pad4 m) ∧
    store' = updateStore store cid codes := by
  unfold sendCodes at hrun
  split at hrun
  · rename_i hnone
    rw [hfind] at hnone
    exact Option.noConfusion hnone
  · rename_i compra' hsome
    rw [hfind] at hsome
    obtain rfl : compra = compra' := by injection hsome
    simp only [] at hrun
    have hcap : ¬ (allExistingCodes store).length + compra.tickets_comprados > 10000 := by
      intro hgt
      rw [if_pos hgt] at hrun
      exact SendResult.noConfusion hrun
    rw [if_neg hcap] at hrun
    cases hloop : genLoopIdx draws compra.tickets_comprados [] (allExistingCodes store) 0 fuel with
    | none =>
      rw [hloop] at hrun
      exact SendResult.noConfusion hrun
    | some newCodes =>
      rw [hloop] at hrun
      injection hrun with h1 h2
      subst h1
      subst h2
      have hsound := genLoopIdx_sound draws compra.tickets_comprados fuel 0
        (allExistingCodes store) [] newCodes (List.nodup_nil) (by simp) (by simp)
        (by rw [List.append_nil]; exact hloop)
      obtain ⟨hnd, hlen, hbef, hpad⟩ := hsound
      refine ⟨hnd, hlen, ?_, rfl⟩
      intro c hc
      refine ⟨?_, hpad c hc⟩
      rcases hbef c hc with hg | hnb
      · exact absurd hg (List.not_mem_nil c)
      · exact hnb

/-- When the lookup and the cap check pass but the loop is still short of
the requested count after `fuel` attempts, the invocation is still inside
the draw loop and nothing has been persisted. -/
theorem sendCodes_pending (store : List Compra) (cid : Nat) (draws : Nat → Nat)
    (fuel : Nat) (compra : Compra)
    (hfind : store.find? (fun c => c.id = cid) = some compra)
    (hcap : ¬ (allExistingCodes store).length + compra.tickets_comprados > 10000)
    (hloop : genLoopIdx draws compra.tickets_comprados [] (allExistingCodes store) 0 fuel = none) :
    sendCodes store cid draws fuel = .pending store := by
  unfold sendCodes
  split
  · rename_i hnone
    rw [hfind] at hnone
    exact Option.noConfusion hnone
  · rename_i compra' hsome
    rw [hfind] at hsome
    obtain rfl : compra = compra' := by injection hsome
    simp only []
    rw [if_neg hcap, hloop]

/-- Total contention: with "0000" already issued, one code requested and a
stream that only ever draws 0, the current revision's loop never finishes,
whatever the number of attempts allowed. -/
theorem genLoopIdx_constZero_stuck :
    ∀ (fuel i : Nat), genLoopIdx constZero 1 [] ["0000"] i fuel = none := by
  intro fuel
  induction fuel with
  | zero =>
    intro i
    simp [genLoopIdx]
  | succ fuel ih =>
    intro i
    have hc : pad4 (constZero i % 10000) = "0000" := by
      simp only [constZero]
      decide
    simp only [genLoopIdx, hc]
    rw [if_pos (by decide), if_pos (by decide)]
    exact ih (i + 1)

/-! ## Claim theorems -/

/-- Claim C1: when the codes already issued system-wide plus the
submission's requested ticket count exceed the global cap of 10000, the
issuance task answers 403 and the stored code lists of every submission
are exactly as before: no codes are persisted, not even partially. -/
theorem sendCodes_capExceeded_fails (store : List Compra) (cid : Nat)
    (draws : Nat → Nat) (fuel : Nat) (compra : Compra)
    (hfind : store.find? (fun c => c.id = cid) = some compra)
    (hcap : (allExistingCodes store).length + compra.tickets_comprados > 10000) :
    sendCodes store cid draws fuel = .err 403 store := by
  unfold sendCodes
  split
  · rename_i hnone
    rw [hfind] at hnone
    exact Option.noConfusion hnone
  · rename_i compra' hsome
    rw [hfind] at hsome
    obtain rfl : compra = compra' := by injection hsome
    simp only []
    rw [if_pos hcap]

/-- Witness for C1: a submission requesting 20000 tickets against an empty
issued set is refused with 403 and the store is unchanged. -/
theorem sendCodes_capExceeded_fails_witness :
    sendCodes storeCap 0 constZero 5 = .err 403 storeCap :=
  sendCodes_capExceeded_fails storeCap 0 constZero 5
    { id := 0, tickets_comprados := 20000, codigos_unicos := [],
      email := "e", nombre_comprador := "n" }
    (by decide) (by decide)

/-- Claim C3: a successful issuance run for a submission requesting N
tickets returns exactly N pairwise-distinct 4-digit zero-padded codes,
none equal to any code already issued to any submission, and the run
preserves the invariant that the multiset of all issued codes has no
duplicates. -/
theorem sendCodes_success_distinct (store : List Compra) (cid : Nat)
    (draws : Nat → Nat) (fuel : Nat) (compra : Compra)
    (codes : List String) (store' : List Compra)
    (hids : (store.map (fun c => c.id)).Nodup)
    (hfind : store.find? (fun c => c.id = cid) = some compra)
    (hrun : sendCodes store cid draws fuel = .ok codes store') :
    codes.Nodup ∧ codes.length = compra.tickets_comprados ∧
    (∀ c ∈ codes, (∃ m, m < 10000 ∧ c = pad4 m) ∧ ∀ r ∈ store, c ∉ r.codigos_unicos) ∧
    ((allStoredCodes store).Nodup → (allStoredCodes store').Nodup) := by
  obtain ⟨hnd, hlen, hprop, rfl⟩ := sendCodes_ok_spec hfind hrun
  have hfresh : ∀ c ∈ codes, c ∉ allStoredCodes store := by
    intro c hc hmem
    exact (hprop c hc).1 (mem_allExistingCodes.mpr (mem_allStoredCodes.mp hmem))
  refine ⟨hnd, hlen, ?_, fun hnodup => updateStore_nodup hids hnd hfresh hnodup⟩
  intro c hc
  exact ⟨(hprop c hc).2,
    fun r hr hmem => (hprop c hc).1 (mem_allExistingCodes.mpr ⟨r, hr, hmem⟩)⟩

/-- Witness for C3: a concrete successful two-ticket run under the
identity draw stream. -/
theorem sendCodes_success_distinct_witness :
    (["0000", "0001"] : List String).Nodup ∧
    (["0000", "0001"] : List String).length = 2 ∧
    (∀ c ∈ (["0000", "0001"] : List String),
      (∃ m, m < 10000 ∧ c = pad4 m) ∧ ∀ r ∈ storeTwo, c ∉ r.codigos_unicos) ∧
    ((allStoredCodes storeTwo).Nodup → (allStoredCodes storeTwoAfter).Nodup) :=
  sendCodes_success_distinct storeTwo 0 drawId 10
    { id := 0, tickets_comprados := 2, codigos_unicos := [],
      email := "e", nombre_comprador := "n" }
    ["0000", "0001"] storeTwoAfter (by decide) (by decide) (by decide)

/-- Counterexample to C2 as stated: the current revision's draw loop is
not bounded by a small fixed multiple of the requested count. For the
one-ticket request of `storeOne` under the all-zero stream the task is
still drawing after 5 attempts (the largest small multiple the spec
quotes) and still after 1000 attempts, having persisted nothing. -/
theorem sendCodes_attemptBound_cex :
    sendCodes storeOne 0 constZero 5 = .pending storeOne ∧
    sendCodes storeOne 0 constZero 1000 = .pending storeOne := by
  constructor
  · exact sendCodes_pending storeOne 0 constZero 5
      { id := 0, tickets_comprados := 1, codigos_unicos := ["0000"],
        email := "e", nombre_comprador := "n" }
      (by decide) (by decide)
      (by rw [show allExistingCodes storeOne = ["0000"] from by decide]
          exact genLoopIdx_constZero_stuck 5 0)
  · exact sendCodes_pending storeOne 0 constZero 1000
      { id := 0, tickets_comprados := 1, codigos_unicos := ["0000"],
        email := "e", nombre_comprador := "n" }
      (by decide) (by decide)
      (by rw [show allExistingCodes storeOne = ["0000"] from by decide]
          exact genLoopIdx_constZero_stuck 1000 0)

/-- Claim C2 (amended): the draw-attempt bound exists only in the earlier
revision: its loop reads at most `remaining` draws of the stream
(`MAX_ATTEMPTS = 5 × requested count` at the call site) and, when the
bound leaves the batch short of the requested count, the handler fails the
whole batch with a 500 and persists nothing. The current revision's loop
is bounded only by reaching the requested count: under total contention it
never finishes, whatever the number of attempts allowed, so termination is
only probabilistic. -/
theorem drawAttempts_bounded_revisions :
    (∀ (store : List Compra) (draws draws' : Nat → Nat) (need : Nat)
        (acc : List String) (i r : Nat),
      (∀ j, j < i + r → draws j = draws' j) →
      genLoopV1 store draws need acc i r = genLoopV1 store draws' need acc i r) ∧
    (∀ (store : List Compra) (cid numTickets : Nat) (draws : Nat → Nat),
      ¬ store.length + numTickets > 10000 →
      (genLoopV1 store draws numTickets [] 0 (numTickets * 5)).length ≠ numTickets →
      sendCodesV1 store cid numTickets draws = .err 500 store) ∧
    (∀ fuel i, genLoopIdx constZero 1 [] ["0000"] i fuel = none) := by
  refine ⟨?_, ?_, genLoopIdx_constZero_stuck⟩
  · intro store draws draws' need acc i r
    induction r generalizing acc i with
    | zero =>
      intro _
      rfl
    | succ r ih =>
      intro h
      simp only [genLoopV1]
      by_cases hlt : acc.length < need
      · rw [if_pos hlt, if_pos hlt, h i (by omega)]
        exact ih _ (i + 1) (fun j hj => h j (by omega))
      · rw [if_neg hlt, if_neg hlt]
  · intro store cid n draws hcap hshort
    unfold sendCodesV1
    rw [if_neg hcap]
    simp only []
    rw [if_pos hshort]

/-- Witness for C2 (amended): the loop result depends only on draws below
the bound; a concrete short batch fails with 500 and no persistence; the
current revision is still drawing after five attempts. -/
theorem drawAttempts_bounded_revisions_witness :
    genLoopV1 storeOne constZero 1 [] 0 5 = genLoopV1 storeOne zeroThenSeven 1 [] 0 5 ∧
    sendCodesV1 storeOne 0 2 constZero = .err 500 storeOne ∧
    genLoopIdx constZero 1 [] ["0000"] 0 5 = none :=
  ⟨drawAttempts_bounded_revisions.1 storeOne constZero zeroThenSeven 1 [] 0 5
      (fun j hj => by
        simp only [constZero, zeroThenSeven]
        rw [if_pos (by omega : j < 5)]),
   drawAttempts_bounded_revisions.2.1 storeOne 0 2 constZero (by decide) (by decide),
   drawAttempts_bounded_revisions.2.2 5 0⟩

/-- Claim C9 (amended): immediately after a successful issuance run, every
returned code is retrievable by looking up the submission it was attached
to — the stored list is exactly the returned batch — and appears in no
other submission's stored list. The original claim's "every code ever
returned remains retrievable afterwards" fails, because a later successful
run for the same submission replaces the stored list wholesale, dropping
the earlier batch (see the counterexample). -/
theorem issuedCodes_roundTrip_latest (store : List Compra) (cid : Nat)
    (draws : Nat → Nat) (fuel : Nat) (compra : Compra)
    (codes : List String) (store' : List Compra)
    (hfind : store.find? (fun c => c.id = cid) = some compra)
    (hrun : sendCodes store cid draws fuel = .ok codes store') :
    store'.find? (fun c => c.id = cid) = some { compra with codigos_unicos := codes } ∧
    ∀ c ∈ store', c.id ≠ cid → ∀ x ∈ codes, x ∉ c.codigos_unicos := by
  obtain ⟨hnd, hlen, hprop, rfl⟩ := sendCodes_ok_spec hfind hrun
  refine ⟨find?_updateStore hfind, ?_⟩
  intro c hc hcid x hx hxc
  exact (hprop x hx).1 (mem_allExistingCodes.mpr ⟨c, mem_updateStore_other hc hcid, hxc⟩)

/-- Witness for C9 (amended) at a concrete one-ticket run. -/
theorem issuedCodes_roundTrip_latest_witness :
    storeB.find? (fun c => c.id = 0) =
      some { id := 0, tickets_comprados := 1, codigos_unicos := ["0000"],
             email := "e", nombre_comprador := "n" } ∧
    ∀ c ∈ storeB, c.id ≠ 0 → ∀ x ∈ (["0000"] : List String), x ∉ c.codigos_unicos :=
  issuedCodes_roundTrip_latest storeA 0 constZero 10
    { id := 0, tickets_comprados := 1, codigos_unicos := [],
      email := "e", nombre_comprador := "n" }
    ["0000"] storeB (by decide) (by decide)

/-- Counterexample to C9 as stated: "0000" is returned by a first
successful run and attached to submission 0, but after a second successful
run for the same submission the update replaces the stored list and "0000"
no longer appears in any submission's stored code list. -/
theorem issuedCodes_roundTrip_cex :
    sendCodes storeA 0 constZero 10 = .ok ["0000"] storeB ∧
    sendCodes storeB 0 drawId 10 = .ok ["0001"] storeC ∧
    "0000" ∉ allStoredCodes storeC := by decide

/-- Counterexample to C4 as stated: the duplicate-reference request is
rejected through the unique-constraint (23505) path with the
duplicate-specific message, yet the HTTP status is 500, not the distinct
conflict status 409 the claim requires. -/
theorem duplicateReference_status_cex :
    (post clientMaxFileSize stWithR1 infraOk "Ana" "a@b.cl" "+56" "R1" "3"
        (some cfile)).fst.error =
      some (registrationErrorMessage msgDuplicateReference) ∧
    (post clientMaxFileSize stWithR1 infraOk "Ana" "a@b.cl" "+56" "R1" "3"
        (some cfile)).fst.status = 500 ∧
    ¬ (post clientMaxFileSize stWithR1 infraOk "Ana" "a@b.cl" "+56" "R1" "3"
        (some cfile)).fst.status = 409 := by
  decide

/-- Claim C4 (amended): an intake request whose reference number equals a
stored submission's is rejected — the `forms` insert violates the unique
constraint and the handler answers with the duplicate-specific message —
but with HTTP status 500 rather than a distinct 409 conflict status, and
the stored data is left unchanged (the uploaded object is removed by the
compensating delete). -/
theorem duplicateReference_rejected (M : Nat) (st : ServerState) (infra : ServerInfra)
    (nombre email telefono referencia ticketsStr : String) (t : Nat) (f : FileData)
    (h1 : ¬ jsTrim nombre = "") (h2 : ¬ jsTrim email = "")
    (h3 : ¬ jsTrim telefono = "") (h4 : ¬ jsTrim referencia = "")
    (h5 : jsParseInt ticketsStr = some t) (h6 : ¬ t < 3)
    (h7 : ¬ f.size = 0) (h8 : ¬ f.size > M)
    (h9 : infra.uploadFails = false)
    (hdup : st.forms.any (fun r => r.receipt_number = referencia) = true)
    (hfresh : infra.uuid ++ "." ++ fileExtension f.name ∉ st.storage) :
    post M st infra nombre email telefono referencia ticketsStr (some f) =
      ({ status := 500
         error := some (registrationErrorMessage msgDuplicateReference)
         dataId := none }, st) := by
  rw [post_reduces M st infra nombre email telefono referencia ticketsStr t f
      h1 h2 h3 h4 h5 h6 h7 h8 h9]
  exact insertPhase_duplicate st infra nombre email telefono referencia t f hdup hfresh

/-- Witness for C4 (amended) at the concrete duplicate request. -/
theorem duplicateReference_rejected_witness :
    post clientMaxFileSize stWithR1 infraOk "Ana" "a@b.cl" "+56" "R1" "3" (some cfile) =
      ({ status := 500
         error := some (registrationErrorMessage msgDuplicateReference)
         dataId := none }, stWithR1) :=
  duplicateReference_rejected clientMaxFileSize stWithR1 infraOk
    "Ana" "a@b.cl" "+56" "R1" "3" 3 cfile
    (by decide) (by decide) (by decide) (by decide) (by decide) (by decide)
    (by decide) (by decide) (by decide) (by decide) (by decide)

/-- Claim C8: whenever a database insert step fails after the proof file
was uploaded — a duplicate reference, a `forms` insert failure, or a
`form_files` insert failure — the handler deletes the uploaded object
before returning the error: the response is a 500 and the bucket is
exactly as before the request, so no uploaded file without an owning
record is retained. -/
theorem rollback_deletes_upload (M : Nat) (st : ServerState) (infra : ServerInfra)
    (nombre email telefono referencia ticketsStr : String) (t : Nat) (f : FileData)
    (h1 : ¬ jsTrim nombre = "") (h2 : ¬ jsTrim email = "")
    (h3 : ¬ jsTrim telefono = "") (h4 : ¬ jsTrim referencia = "")
    (h5 : jsParseInt ticketsStr = some t) (h6 : ¬ t < 3)
    (h7 : ¬ f.size = 0) (h8 : ¬ f.size > M)
    (h9 : infra.uploadFails = false)
    (hfresh : infra.uuid ++ "." ++ fileExtension f.name ∉ st.storage)
    (hfail : st.forms.any (fun r => r.receipt_number = referencia) = true ∨
      infra.formsInsertInfraFails = true ∨ infra.fileMetaInsertFails = true) :
    (post M st infra nombre email telefono referencia ticketsStr (some f)).fst.status = 500 ∧
    (post M st infra nombre email telefono referencia ticketsStr (some f)).snd.storage =
      st.storage := by
  rw [post_reduces M st infra nombre email telefono referencia ticketsStr t f
      h1 h2 h3 h4 h5 h6 h7 h8 h9]
  exact insertPhase_dbFailure st infra nombre email telefono referencia t f hfresh hfail

/-- Witness for C8: a metadata-insert failure after a successful upload
leaves the bucket empty again and answers 500. -/
theorem rollback_deletes_upload_witness :
    (post clientMaxFileSize stEmpty infraMetaFail "Ana" "a@b.cl" "+56" "R1" "3"
        (some cfile)).fst.status = 500 ∧
    (post clientMaxFileSize stEmpty infraMetaFail "Ana" "a@b.cl" "+56" "R1" "3"
        (some cfile)).snd.storage = stEmpty.storage :=
  rollback_deletes_upload clientMaxFileSize stEmpty infraMetaFail
    "Ana" "a@b.cl" "+56" "R1" "3" 3 cfile
    (by decide) (by decide) (by decide) (by decide) (by decide) (by decide)
    (by decide) (by decide) (by decide) (by decide)
    (Or.inr (Or.inr (by decide)))

/-- Counterexample to C5 as stated: with an empty buyer name AND the terms
checkbox unticked, two rules fail, yet submit returns only the name
message — the terms-rule message is not among the returned errors, because
the source checks the terms only after the collected errors pass. -/
theorem clientValidation_terms_cex :
    handleSubmit cform (some cfile) false = .rejected [msgNameRequired] ∧
    msgTermsRequired ∉ [msgNameRequired] := by
  decide

/-- Claim C5 (amended): submit evaluates all field and file rules,
collects every failing message and returns them together without issuing
the transport request; the terms rule, however, is evaluated only after
those pass and its message is returned alone; the transport request is
issued only when every rule passes. -/
theorem clientValidation_collects (form : ClientForm) (pf : Option FileData)
    (terms : Bool) :
    (clientFieldErrors form pf ≠ [] →
      handleSubmit form pf terms = .rejected (clientFieldErrors form pf)) ∧
    (clientFieldErrors form pf = [] → terms = false →
      handleSubmit form pf terms = .rejected [msgTermsRequired]) ∧
    (∀ payload, handleSubmit form pf terms = .transport payload →
      clientFieldErrors form pf = [] ∧ terms = true) := by
  unfold handleSubmit
  cases hfe : clientFieldErrors form pf with
  | nil =>
    simp only [hfe, List.isEmpty_nil, if_true]
    cases terms
    · exact ⟨fun hne => absurd (by trivial) hne, fun _ _ => rfl,
        fun payload hp => SubmitOutcome.noConfusion hp⟩
    · exact ⟨fun hne => absurd (by trivial) hne, fun _ ht => Bool.noConfusion ht,
        fun payload hp => ⟨by trivial, rfl⟩⟩
  | cons e rest =>
    simp only [hfe, List.isEmpty_cons, if_false]
    exact ⟨fun _ => rfl, fun hnil => absurd hnil (by simp),
      fun payload hp => SubmitOutcome.noConfusion hp⟩

/-- Witness for C5 (amended): the failing form returns exactly its
collected field errors; the all-valid form with terms unticked returns the
terms message alone. -/
theorem clientValidation_collects_witness :
    handleSubmit cform (some cfile) false =
      .rejected (clientFieldErrors cform (some cfile)) ∧
    handleSubmit cformOk (some cfile) false = .rejected [msgTermsRequired] :=
  ⟨(clientValidation_collects cform (some cfile) false).1 (by decide),
   (clientValidation_collects cformOk (some cfile) false).2.1 (by decide) rfl⟩

/-- Claim C6: a ticket count of 2 is rejected with the explicit
minimum-count message by the client validator and by the server handler; a
count of exactly 3 passes the minimum rule on both sides; a non-numeric
count is an error on both sides, not a silent clamp. -/
theorem minTicketCount_both_sides (form : ClientForm) (pf : Option FileData)
    (M : Nat) (st : ServerState) (infra : ServerInfra)
    (nombre email telefono referencia : String) (f : FileData)
    (h1 : ¬ jsTrim nombre = "") (h2 : ¬ jsTrim email = "")
    (h3 : ¬ jsTrim telefono = "") (h4 : ¬ jsTrim referencia = "")
    (h7 : ¬ f.size = 0) (h8 : ¬ f.size > M)
    (h9 : infra.uploadFails = false) (h10 : infra.formsInsertInfraFails = false)
    (h11 : infra.fileMetaInsertFails = false)
    (hdup : st.forms.any (fun r => r.receipt_number = referencia) = false) :
    msgMinTicketsClient ∈ clientFieldErrors { form with ticketCount := "2" } pf ∧
    msgMinTicketsClient ∉ clientFieldErrors { form with ticketCount := "3" } pf ∧
    (∀ s, jsParseInt s = none →
      msgMinTicketsClient ∈ clientFieldErrors { form with ticketCount := s } pf) ∧
    post M st infra nombre email telefono referencia "2" (some f) =
      ({ status := 400, error := some msgMinTicketsServer, dataId := none }, st) ∧
    (∀ s, jsParseInt s = none →
      post M st infra nombre email telefono referencia s (some f) =
        ({ status := 400, error := some msgMinTicketsServer, dataId := none }, st)) ∧
    (post M st infra nombre email telefono referencia "3" (some f)).fst.status = 200 := by
  refine ⟨?_, ?_, ?_, ?_, ?_, ?_⟩
  · rw [minTicket_mem_iff]
    show (jsParseInt "2").getD 0 < 3
    decide
  · rw [minTicket_mem_iff]
    show ¬ (jsParseInt "3").getD 0 < 3
    decide
  · intro s hs
    rw [minTicket_mem_iff]
    simp [hs]
  · unfold post
    rw [if_neg (by simp [h1, h2, h3, h4]),
      show jsParseInt "2" = some 2 from by decide]
    simp only []
    rw [if_pos (by norm_num)]
  · intro s hs
    unfold post
    rw [if_neg (by simp [h1, h2, h3, h4]), hs]
  · rw [post_reduces M st infra nombre email telefono referencia "3" 3 f
      h1 h2 h3 h4 (by decide) (by norm_num) h7 h8 h9,
      insertPhase_success st infra nombre email telefono referencia 3 f hdup h10 h11]

/-- Witness for C6 at concrete inputs on both sides. -/
theorem minTicketCount_both_sides_witness :
    msgMinTicketsClient ∈ clientFieldErrors { cformOk with ticketCount := "2" } (some cfile) ∧
    msgMinTicketsClient ∉ clientFieldErrors { cformOk with ticketCount := "3" } (some cfile) ∧
    (∀ s, jsParseInt s = none →
      msgMinTicketsClient ∈ clientFieldErrors { cformOk with ticketCount := s } (some cfile)) ∧
    post clientMaxFileSize stEmpty infraOk "Ana" "a@b.cl" "+56" "R1" "2" (some cfile) =
      ({ status := 400, error := some msgMinTicketsServer, dataId := none }, stEmpty) ∧
    (∀ s, jsParseInt s = none →
      post clientMaxFileSize stEmpty infraOk "Ana" "a@b.cl" "+56" "R1" s (some cfile) =
        ({ status := 400, error := some msgMinTicketsServer, dataId := none }, stEmpty)) ∧
    (post clientMaxFileSize stEmpty infraOk "Ana" "a@b.cl" "+56" "R1" "3"
        (some cfile)).fst.status = 200 :=
  minTicketCount_both_sides cformOk (some cfile) clientMaxFileSize stEmpty infraOk
    "Ana" "a@b.cl" "+56" "R1" cfile
    (by decide) (by decide) (by decide) (by decide) (by decide) (by decide)
    (by decide) (by decide) (by decide) (by decide)

/-- Claim C7: a proof file of byte size exactly the configured ceiling is
accepted by the client check at selection time (stored as the proof file)
and by the server check (the request succeeds end to end); one byte over
the ceiling, both sides reject it with their size-specific message. Both
checks are strict-greater comparisons; the ceiling is instantiated at the
3 MiB constant, the only value defined under the sources. -/
theorem fileSizeBoundary (prev : Option FileData) (v : String) (fname : String)
    (st : ServerState) (infra : ServerInfra)
    (nombre email telefono referencia ticketsStr : String) (t : Nat)
    (h1 : ¬ jsTrim nombre = "") (h2 : ¬ jsTrim email = "")
    (h3 : ¬ jsTrim telefono = "") (h4 : ¬ jsTrim referencia = "")
    (h5 : jsParseInt ticketsStr = some t) (h6 : ¬ t < 3)
    (h9 : infra.uploadFails = false) (h10 : infra.formsInsertInfraFails = false)
    (h11 : infra.fileMetaInsertFails = false)
    (hdup : st.forms.any (fun r => r.receipt_number = referencia) = false) :
    (handleFileChange prev (some { name := fname, size := clientMaxFileSize }) v).proofFile =
      some { name := fname, size := clientMaxFileSize } ∧
    handleFileChange prev (some { name := fname, size := clientMaxFileSize + 1 }) v =
      { proofFile := none
        validationErrors := [fileTooLargeMessage (clientMaxFileSize + 1)]
        inputValue := "" } ∧
    (post clientMaxFileSize st infra nombre email telefono referencia ticketsStr
        (some { name := fname, size := clientMaxFileSize })).fst.status = 200 ∧
    post clientMaxFileSize st infra nombre email telefono referencia ticketsStr
        (some { name := fname, size := clientMaxFileSize + 1 }) =
      ({ status := 400, error := some msgFileTooLargeServer, dataId := none }, st) := by
  refine ⟨?_, ?_, ?_, ?_⟩
  · simp [handleFileChange]
  · simp [handleFileChange, clientMaxFileSize]
  · rw [post_reduces clientMaxFileSize st infra nombre email telefono referencia ticketsStr t
        { name := fname, size := clientMaxFileSize } h1 h2 h3 h4 h5 h6
        (by norm_num [clientMaxFileSize]) (by norm_num) h9,
      insertPhase_success st infra nombre email telefono referencia t
        { name := fname, size := clientMaxFileSize } hdup h10 h11]
  · unfold post
    rw [if_neg (by simp [h1, h2, h3, h4]), h5]
    simp only []
    rw [if_neg h6, if_neg (by norm_num [clientMaxFileSize]), if_pos (by norm_num)]

/-- Witness for C7 at concrete inputs. -/
theorem fileSizeBoundary_witness :
    (handleFileChange (some cfile) (some { name := "f.png", size := clientMaxFileSize })
        "x").proofFile = some { name := "f.png", size := clientMaxFileSize } ∧
    handleFileChange (some cfile) (some { name := "f.png", size := clientMaxFileSize + 1 }) "x" =
      { proofFile := none
        validationErrors := [fileTooLargeMessage (clientMaxFileSize + 1)]
        inputValue := "" } ∧
    (post clientMaxFileSize stEmpty infraOk "Ana" "a@b.cl" "+56" "R1" "3"
        (some { name := "f.png", size := clientMaxFileSize })).fst.status = 200 ∧
    post clientMaxFileSize stEmpty infraOk "Ana" "a@b.cl" "+56" "R1" "3"
        (some { name := "f.png", size := clientMaxFileSize + 1 }) =
      ({ status := 400, error := some msgFileTooLargeServer, dataId := none }, stEmpty) :=
  fileSizeBoundary (some cfile) "x" "f.png" stEmpty infraOk
    "Ana" "a@b.cl" "+56" "R1" "3" 3
    (by decide) (by decide) (by decide) (by decide) (by decide) (by decide)
    (by decide) (by decide) (by decide) (by decide)

/-- Claim C10: the file-selection handler keeps the invariant that the
stored proof file never exceeds the client ceiling: an oversized selection
reports the size error, clears any previously attached file (the stored
file becomes none, whatever was stored before) and resets the input, and
no run of the handler can leave an oversized file stored. -/
theorem handleFileChange_invariant (prev sel : Option FileData) (v : String)
    (f : FileData) (hsel : sel = some f) (hbig : f.size > clientMaxFileSize) :
    handleFileChange prev sel v =
      { proofFile := none
        validationErrors := [fileTooLargeMessage f.size]
        inputValue := "" } ∧
    (∀ (prev2 sel2 : Option FileData) (v2 : String) (g : FileData),
      (handleFileChange prev2 sel2 v2).proofFile = some g →
      g.size ≤ clientMaxFileSize) := by
  subst hsel
  refine ⟨by simp [handleFileChange, hbig], ?_⟩
  intro prev2 sel2 v2 g hg
  cases sel2 with
  | none => simp [handleFileChange] at hg
  | some s =>
    by_cases hs : s.size > clientMaxFileSize
    · simp [handleFileChange, hs] at hg
    · simp only [handleFileChange, if_neg hs] at hg
      obtain rfl : s = g := by injection hg
      omega

/-- Witness for C10: selecting an oversized file clears the previously
attached small file and resets the input. -/
theorem handleFileChange_invariant_witness :
    handleFileChange (some cfile) (some fOver) "prev.png" =
      { proofFile := none
        validationErrors := [fileTooLargeMessage fOver.size]
        inputValue := "" } ∧
    (∀ (prev2 sel2 : Option FileData) (v2 : String) (g : FileData),
      (handleFileChange prev2 sel2 v2).proofFile = some g →
      g.size ≤ clientMaxFileSize) :=
  handleFileChange_invariant (some cfile) (some fOver) "prev.png" fOver rfl (by decide)

end MSSorteos
